import Mathlib

set_option linter.unusedVariables false

/-!
Shallow embedding of the InnSight frontend core (Data Access Facade,
Client-Side Aggregator, Map View Adapter, Chart View Adapter, Filter State
Controller) from `src/frontend/js/map.js` and `src/unnamed/part_002`.

JSON values are modelled with `Option` for possibly-absent fields, `ℚ` for
JSON numbers (ids as `ℕ`), and `Except Unit` for the outcome of a
`fetch` + `response.json()` round-trip (`Except.error ()` is a transport or
parse failure; logging via `console.error`/`console.log` is a side effect
with no observable data-flow and is not modelled).  JavaScript truthiness
tests (`if (x)`, `x || d`) are modelled by the `truthy*` helpers below:
`undefined`/`null`, the number `0` and the empty string are falsy.
-/

/-- A listing record as delivered by the data service (one JSON object of the
`listings` array, §6 of the spec). -/
structure Listing where
  id : Option ℕ
  name : Option String
  latitude : Option ℚ
  longitude : Option ℚ
  price : Option ℚ
  room_type : Option String
  neighbourhood_cleansed : Option String
  host_id : Option ℕ
  host_name : Option String
  review_scores_rating : Option ℚ
  number_of_reviews : Option ℕ
deriving DecidableEq

/-- A listing record with every JSON field absent. -/
def blankListing : Listing :=
  ⟨none, none, none, none, none, none, none, none, none, none, none⟩

/-- JS truthiness of an optional number: `undefined`, `null` and `0` are falsy. -/
def truthyNum (x : Option ℚ) : Bool :=
  match x with
  | none => false
  | some v => decide (v ≠ 0)

/-- JS truthiness of an optional string: `undefined`, `null` and `""` are falsy. -/
def truthyStr (x : Option String) : Bool :=
  match x with
  | none => false
  | some s => decide (s ≠ "")

/-- JS truthiness of an optional natural number (ids): `undefined`, `null`
and `0` are falsy. -/
def truthyNat (x : Option ℕ) : Bool :=
  match x with
  | none => false
  | some n => decide (n ≠ 0)

/-!  Map View Adapter (`MapComponent`, src/frontend/js/map.js).  -/

/-- `MapComponent.getMarkerColor` (map.js lines 31-39): hex color of the
marker icon as a step function of the price.
`if (!price || price === null || price === 0) return gray` then the
`> 300` / `> 150` tiers. -/
def getMarkerColor (price : Option ℚ) : String :=
  match price with
  | none => "#9ca3af"
  | some p =>
      if p = 0 then "#9ca3af"
      else if p > 300 then "#ef4444"
      else if p > 150 then "#f59e0b"
      else "#10b981"

/-- A Leaflet marker as placed by `addListings`: its position and the color
of its icon (`createMarkerIcon`). -/
structure Marker where
  latitude : Option ℚ
  longitude : Option ℚ
  color : String
deriving DecidableEq

/-- The filter of `MapComponent.addListings` (map.js lines 77-83):
`l.latitude && l.longitude && l.price !== null && l.price !== undefined && l.price > 0`. -/
def validListing (l : Listing) : Bool :=
  truthyNum l.latitude && truthyNum l.longitude &&
    (match l.price with
     | some p => decide (p > 0)
     | none => false)

/-- Marker built for one valid listing (map.js lines 88-92). -/
def mkMarker (l : Listing) : Marker :=
  ⟨l.latitude, l.longitude, getMarkerColor l.price⟩

/-- `MapComponent.addListings` (map.js lines 67-123).  The marker layer is
modelled by state passing: the result is the new content of `markersLayer`.
The source first calls `markersLayer.clearLayers()`, returns early on an
empty input, then places one marker per listing passing `validListing`. -/
def addListings (markers : List Marker) (listings : List Listing) : List Marker :=
  if listings.isEmpty then []
  else (listings.filter validListing).map mkMarker

/-- The record predicate of claim C3 as the spec words it: the record *has*
a latitude, a longitude, and a positive price (presence, not JS truthiness). -/
def specHasCoordsAndPositivePrice (l : Listing) : Bool :=
  l.latitude.isSome && l.longitude.isSome &&
    (match l.price with
     | some p => decide (p > 0)
     | none => false)

/-- A record with latitude present but equal to `0` (Javascript treats it as
falsy, so `addListings` drops it even though it has both coordinates and a
positive price). -/
def zeroLatListing : Listing :=
  { blankListing with latitude := some 0, longitude := some 1, price := some 50 }

/-- Two ordinary records and one record lacking a latitude, for the concrete
instance of C3 (3 records, one lacks latitude, 2 markers). -/
def exListingA : Listing :=
  { blankListing with latitude := some 51, longitude := some 1, price := some 100 }

/-- Second ordinary record of the C3 concrete instance. -/
def exListingB : Listing :=
  { blankListing with latitude := some 52, longitude := some 2, price := some 200 }

/-- The record of the C3 concrete instance that lacks a latitude. -/
def exListingNoLat : Listing :=
  { blankListing with longitude := some 3, price := some 300 }

/-!  Data Access Facade (`API`, src/unnamed/part_002 and map.js).  Each
operation takes the outcome of its `fetch` + `response.json()` round-trip
as an explicit argument.  -/

/-- Body of the listing query response: `{ listings: ListingRecord[] }`. -/
structure ListingsResponse where
  listings : Option (List Listing)
deriving DecidableEq

/-- `API.getListings` (part_002 lines 13-35, map.js lines 182-204): on
success returns the parsed body unchanged; on failure logs and `throw error`
re-throws the failure to the caller. -/
def getListings (r : Except Unit ListingsResponse) : Except Unit ListingsResponse :=
  match r with
  | Except.ok d => Except.ok d
  | Except.error e => Except.error e

/-- Body of the neighbourhood list response. -/
structure NeighbourhoodsResponse where
  neighbourhoods : Option (List String)
deriving DecidableEq

/-- `API.getNeighbourhoods` (part_002 lines 40-49): `data.neighbourhoods || []`
on success, `[]` on failure. -/
def getNeighbourhoods (r : Except Unit NeighbourhoodsResponse) : List String :=
  match r with
  | Except.ok d => d.neighbourhoods.getD []
  | Except.error _ => []

/-- One `by_neighbourhood` entry of the price statistics response. -/
structure NbPriceStat where
  _id : String
  avg_price : ℚ
  min_price : ℚ
  max_price : ℚ
  count : ℕ
deriving DecidableEq

/-- The `overall` part of the price statistics response. -/
structure PriceStatsOverall where
  avg_price : ℚ
  min_price : ℚ
  max_price : ℚ
  count : ℕ
deriving DecidableEq

/-- Body of the price statistics response. -/
structure PriceStatsResponse where
  overall : PriceStatsOverall
  by_neighbourhood : List NbPriceStat
deriving DecidableEq

/-- What `API.getPriceStats` hands back on success (map.js lines 223-239):
the whole stats object, or one neighbourhood's entry, or the literal
default `{avg_price: 0, count: 0}` when the neighbourhood is not found. -/
inductive PriceStatsResult where
  | whole (d : PriceStatsResponse)
  | nbStats (s : NbPriceStat)
  | nbDefault
deriving DecidableEq

/-- `API.getPriceStats` (map.js lines 223-239): on failure logs and
re-throws. -/
def getPriceStats (r : Except Unit PriceStatsResponse) (neighbourhood : Option String) :
    Except Unit PriceStatsResult :=
  match r with
  | Except.error e => Except.error e
  | Except.ok d =>
      if truthyStr neighbourhood then
        match d.by_neighbourhood.find? (fun s => s._id == neighbourhood.getD "") with
        | some s => Except.ok (PriceStatsResult.nbStats s)
        | none => Except.ok PriceStatsResult.nbDefault
      else Except.ok (PriceStatsResult.whole d)

/-- One label's statistics inside the sentiment response. -/
structure SentimentEntry where
  count : Option ℚ
  percentage : Option ℚ
  avg_score : Option ℚ
deriving DecidableEq

/-- The `sentiment` object of the sentiment response. -/
structure SentimentStats where
  positive : SentimentEntry
  neutral : SentimentEntry
  negative : SentimentEntry
deriving DecidableEq

/-- Body of the city-wide sentiment response. -/
structure SentimentResponse where
  sentiment : Option SentimentStats
deriving DecidableEq

/-- `API.getSentiment` (part_002 lines 82-91, map.js lines 286-295): on
success returns the parsed body unchanged; on failure logs and re-throws. -/
def getSentiment (r : Except Unit SentimentResponse) : Except Unit SentimentResponse :=
  match r with
  | Except.ok d => Except.ok d
  | Except.error e => Except.error e

/-- One word of the word-frequency response. -/
structure WordEntry where
  word : String
  count : ℕ
deriving DecidableEq

/-- Body of the word-frequency response. -/
structure WordCloudResponse where
  words : Option (List WordEntry)
deriving DecidableEq

/-- `API.getWordCloud` (part_002 lines 110-123): `data.words || []` on
success, `[]` on failure. -/
def getWordCloud (r : Except Unit WordCloudResponse) : List WordEntry :=
  match r with
  | Except.ok d => d.words.getD []
  | Except.error _ => []

/-!  Client-Side Aggregator: room-type distribution (map.js lines 244-281).  -/

/-- `listing.room_type || 'Unknown'` (map.js line 260). -/
def roomKeyOf (l : Listing) : String :=
  if truthyStr l.room_type then l.room_type.getD "" else "Unknown"

/-- Distinct keys in first-encounter order: the enumeration order of a JS
object whose keys are non-numeric strings (insertion order). -/
def encounterKeys (ks : List String) : List String :=
  ks.foldl (fun acc k => if k ∈ acc then acc else acc ++ [k]) []

/-- `Number.prototype.toFixed(1)` as an exact rational: round to the nearest
tenth, ties to the larger value (the ECMAScript rule). -/
def round1 (q : ℚ) : ℚ := (⌊q * 10 + 1 / 2⌋ : ℚ) / 10

/-- One row of the room-type distribution. -/
structure RoomTypeEntry where
  _id : String
  count : ℕ
  percentage : ℚ
deriving DecidableEq

/-- The client-side aggregation of `API.getRoomTypeDistribution`
(map.js lines 258-269): group by room-type label, then
`percentage = (count / total * 100).toFixed(1)` (or the number `0` when the
total is `0` - unreachable, since then there are no groups). -/
def roomTypeDistribution (listings : List Listing) : List RoomTypeEntry :=
  let labels := listings.map roomKeyOf
  let total := listings.length
  (encounterKeys labels).map (fun k =>
    ⟨k, labels.count k,
     if total > 0 then round1 ((labels.count k : ℚ) / (total : ℚ) * 100) else 0⟩)

/-- Body of the value `API.getRoomTypeDistribution` resolves to. -/
structure RoomTypeDistributionResult where
  city : String
  neighbourhood : Option String
  total_listings : ℕ
  distribution : List RoomTypeEntry
deriving DecidableEq

/-- `API.getRoomTypeDistribution` (map.js lines 244-281): fetches the
(possibly neighbourhood-scoped) listings, aggregates client-side; on
failure logs and re-throws. -/
def getRoomTypeDistribution (r : Except Unit ListingsResponse)
    (neighbourhood : Option String) : Except Unit RoomTypeDistributionResult :=
  match r with
  | Except.error e => Except.error e
  | Except.ok d =>
      let listings := d.listings.getD []
      Except.ok ⟨"london", neighbourhood, listings.length, roomTypeDistribution listings⟩

/-!  Client-Side Aggregator: top hosts (map.js lines 367-425).  -/

/-- A property key of the JS `hostCounts` object: either an array-index key
(canonical numeric string below 2^32 - 1) or an ordinary string key. -/
inductive HostKey where
  | num (n : ℕ)
  | str (s : String)
deriving DecidableEq

/-- `listing.host_id || 'unknown'` (map.js line 383) as a property key: a
falsy id (absent or `0`) buckets under the string key `"unknown"`; a
numeric id becomes the property key `String(id)`, which is an array-index
key exactly when the id is below 2^32 - 1. -/
def hostKeyOf (l : Listing) : HostKey :=
  match l.host_id with
  | none => HostKey.str "unknown"
  | some n =>
      if n = 0 then HostKey.str "unknown"
      else if n < 4294967295 then HostKey.num n
      else HostKey.str (toString n)

/-- `listing.host_name || 'Unknown Host'` (map.js line 384). -/
def hostNameOf (l : Listing) : String :=
  if truthyStr l.host_name then l.host_name.getD "" else "Unknown Host"

/-- The per-host accumulator object (map.js lines 387-393). -/
structure HostAcc where
  host_id : HostKey
  host_name : String
  listing_count : ℕ
  total_price : ℚ
  count_with_price : ℕ
deriving DecidableEq

/-- `if (listing.price)` (map.js line 397): JS truthiness of the price. -/
def truthyPrice (l : Listing) : Bool := truthyNum l.price

/-- The increments of map.js lines 396-400. -/
def bumpHost (a : HostAcc) (l : Listing) : HostAcc :=
  { a with
    listing_count := a.listing_count + 1,
    total_price := if truthyPrice l then a.total_price + l.price.getD 0 else a.total_price,
    count_with_price := if truthyPrice l then a.count_with_price + 1 else a.count_with_price }

/-- One step of the `listings.forEach` loop (map.js lines 382-401): create
the host's accumulator if absent, then increment it. -/
def updHost (m : List (HostKey × HostAcc)) (l : Listing) : List (HostKey × HostAcc) :=
  let k := hostKeyOf l
  let m1 := if m.any (fun p => p.1 == k) then m
            else m ++ [(k, ⟨k, hostNameOf l, 0, 0, 0⟩)]
  m1.map (fun p => if p.1 == k then (p.1, bumpHost p.2 l) else p)

/-- The `hostCounts` object after the loop, as an association list in
property-insertion order. -/
def buildHosts (listings : List Listing) : List (HostKey × HostAcc) :=
  listings.foldl updHost []

/-- Whether a property key is an array-index key. -/
def isNumKey (k : HostKey) : Bool :=
  match k with
  | HostKey.num _ => true
  | HostKey.str _ => false

/-- Numeric value of an array-index key (irrelevant for string keys). -/
def numOfKey (k : HostKey) : ℕ :=
  match k with
  | HostKey.num n => n
  | HostKey.str _ => 0

/-- `Object.values(hostCounts)` (map.js line 404): array-index keys first in
ascending numeric order, then string keys in insertion order. -/
def jsObjectValues (m : List (HostKey × HostAcc)) : List HostAcc :=
  ((m.filter (fun p => isNumKey p.1)).mergeSort
      (fun p q => decide (numOfKey p.1 ≤ numOfKey q.1)) ++
    m.filter (fun p => ! isNumKey p.1)).map Prod.snd

/-- One element of the `top_hosts` array (map.js lines 404-411). -/
structure HostEntry where
  _id : HostKey
  host_name : String
  listing_count : ℕ
  avg_price : ℚ
deriving DecidableEq

/-- map.js lines 404-411: convert an accumulator to its output entry;
`avg_price = count_with_price > 0 ? total_price / count_with_price : 0`. -/
def toHostEntry (a : HostAcc) : HostEntry :=
  ⟨a.host_id, a.host_name, a.listing_count,
   if a.count_with_price > 0 then a.total_price / (a.count_with_price : ℚ) else 0⟩

/-- The `hosts` array before sorting (map.js lines 404-411). -/
def hostsArray (listings : List Listing) : List HostEntry :=
  (jsObjectValues (buildHosts listings)).map toHostEntry

/-- `hosts.sort((a, b) => b.listing_count - a.listing_count)` (map.js line
414): the ES2019 stable sort, by listing count descending. -/
def hostsSorted (listings : List Listing) : List HostEntry :=
  (hostsArray listings).mergeSort (fun a b => decide (b.listing_count ≤ a.listing_count))

/-- The default of the `limit` parameter of `getTopHosts` (map.js line 367). -/
def topHostsDefaultLimit : ℕ := 10

/-- The whole client-side aggregation of `API.getTopHosts` (map.js lines
380-419): group, average, sort, `slice(0, limit)`. -/
def topHosts (listings : List Listing) (limit : ℕ) : List HostEntry :=
  (hostsSorted listings).take limit

/-- Body of the value `API.getTopHosts` resolves to; on the failure path the
source returns the literal `{ top_hosts: [] }`, which has no `city` or
`neighbourhood` property. -/
structure TopHostsResult where
  city : Option String
  neighbourhood : Option String
  top_hosts : List HostEntry
deriving DecidableEq

/-- `API.getTopHosts` (map.js lines 367-425): on success aggregates
client-side; on failure logs and returns `{ top_hosts: [] }`. -/
def getTopHosts (r : Except Unit ListingsResponse) (neighbourhood : Option String)
    (limit : ℕ) : TopHostsResult :=
  match r with
  | Except.ok d => ⟨some "london", neighbourhood, topHosts (d.listings.getD []) limit⟩
  | Except.error _ => ⟨none, none, []⟩

/-!  Client-Side Aggregator: occupancy (map.js lines 320-362).  -/

/-- One monthly occupancy point. -/
structure OccupancyPoint where
  _id : String
  month : String
  occupancy_rate : ℚ
deriving DecidableEq

/-- Body of the server occupancy response. -/
structure OccupancyResponse where
  by_month : Option (List OccupancyPoint)
deriving DecidableEq

/-- The object built by `getMockOccupancy`. -/
structure OccupancyResult where
  city : String
  neighbourhood : Option String
  by_month : List OccupancyPoint
deriving DecidableEq

/-- The twelve month labels (map.js lines 342-345). -/
def occupancyMonths : List String :=
  ["Jan", "Feb", "Mar", "Apr", "May", "Jun", "Jul", "Aug", "Sep", "Oct", "Nov", "Dec"]

/-- The fixed seasonal baseline rates (map.js line 348). -/
def occupancyBaseRates : List ℚ := [45, 48, 55, 62, 70, 78, 85, 82, 68, 58, 50, 52]

/-- `String(i + 1).padStart(2, '0')` (map.js line 357). -/
def pad2 (n : ℕ) : String := if n < 10 then "0" ++ toString n else toString n

/-- `Math.max(0, Math.min(100, x))` (map.js line 359). -/
def clamp100 (x : ℚ) : ℚ := max 0 (min 100 x)

/-- `API.getMockOccupancy` (map.js lines 341-362).  The one draw of
`Math.random()` is the parameter `rand`; the perturbation is applied only
when a (truthy) neighbourhood is given. -/
def getMockOccupancy (neighbourhood : Option String) (rand : ℚ) : OccupancyResult :=
  let variation : ℚ := if truthyStr neighbourhood then rand * 10 - 5 else 0
  ⟨"london", neighbourhood,
   (occupancyMonths.zip occupancyBaseRates).enum.map (fun p =>
     ⟨"2024-" ++ pad2 (p.1 + 1), p.2.1, clamp100 (p.2.2 + variation)⟩)⟩

/-- What `API.getOccupancy` resolves to: the server body as-is, or the mock
fallback. -/
inductive OccupancyData where
  | server (d : OccupancyResponse)
  | mock (m : OccupancyResult)
deriving DecidableEq

/-- `API.getOccupancy` (map.js lines 320-336): uses the server data when
`data.by_month && data.by_month.length > 0`, otherwise (including on
transport/parse failure) substitutes the mock data. -/
def getOccupancy (r : Except Unit OccupancyResponse) (neighbourhood : Option String)
    (rand : ℚ) : OccupancyData :=
  match r with
  | Except.ok d =>
      match d.by_month with
      | some pts =>
          if 0 < pts.length then OccupancyData.server d
          else OccupancyData.mock (getMockOccupancy neighbourhood rand)
      | none => OccupancyData.mock (getMockOccupancy neighbourhood rand)
  | Except.error _ => OccupancyData.mock (getMockOccupancy neighbourhood rand)

/-- The sum of the rounded percentages that `roomTypeDistribution` reports. -/
def sumPercentages (L : List Listing) : ℚ :=
  ((roomTypeDistribution L).map (fun e => e.percentage)).sum

/-- One record of room type "a" for the C5 counterexample. -/
def roomA : Listing := { blankListing with room_type := some "a" }

/-- One record of room type "b" for the C5 counterexample. -/
def roomB : Listing := { blankListing with room_type := some "b" }

/-- One record of room type "c" for the C5 counterexample. -/
def roomC : Listing := { blankListing with room_type := some "c" }

/-- The majority room type "d" of the C5 counterexample. -/
def roomD : Listing := { blankListing with room_type := some "d" }

/-- 16 records in groups of sizes 1, 1, 1 and 13: every group percentage
(6.25, 6.25, 6.25, 81.25) rounds half up, to 6.3, 6.3, 6.3 and 81.3. -/
def roomTypeSixteen : List Listing := [roomA, roomB, roomC] ++ List.replicate 13 roomD

/-!  Properties of the top-hosts aggregation (claims C6, C7).  -/

/-- The records of host key `k` in a record set (grouping predicate of the
`hostCounts` object). -/
def hostRecords (k : HostKey) (L : List Listing) : List Listing :=
  L.filter (fun l => hostKeyOf l == k)

/-- The records of host key `k` whose price is truthy (the listings that
contribute to the price sum and price count). -/
def hostPriced (k : HostKey) (L : List Listing) : List Listing :=
  (hostRecords k L).filter truthyPrice

/-- Look a host key up in the accumulator association list. -/
def findAcc (k : HostKey) (m : List (HostKey × HostAcc)) : Option HostAcc :=
  (m.find? (fun p => p.1 == k)).map Prod.snd

/-- A single listing with host id 1 and a negative (hence truthy) price. -/
def negPriceListing : Listing :=
  { blankListing with host_id := some 1, price := some (-50) }

/-- A listing of host 5, encountered first in the C6 counterexample. -/
def hostFive : Listing :=
  { blankListing with host_id := some 5, host_name := some "A" }

/-- A listing of host 3, encountered second in the C6 counterexample. -/
def hostThree : Listing :=
  { blankListing with host_id := some 3, host_name := some "B" }

/-!  Quick-stat positive-sentiment percentage (claim C9,
`App.updateStats`, part_002 lines 976-1008).  -/

/-- One row of the sentiment-by-neighbourhood response. -/
structure NbSentiment where
  neighbourhood : String
  total_reviews : Option ℚ
  positive : Option ℚ
  positive_pct : Option ℚ
  neutral : Option ℚ
  neutral_pct : Option ℚ
  negative : Option ℚ
  negative_pct : Option ℚ
  avg_sentiment_score : Option ℚ
deriving DecidableEq

/-- The positive percentage `App.updateStats` assigns to the quick-stat
(part_002 lines 987-1001).  `nbResp` is what `getSentimentByNeighbourhood`
returned (used when a neighbourhood is selected), `cityResp` what
`getSentiment` returned (used city-wide); `none` models the Javascript
`undefined` an absent field produces (the subsequent `toFixed` call then
throws, and the quick-stat is not updated). -/
def updateStatsPct (neighbourhood : Option String) (nbResp : List NbSentiment)
    (cityResp : SentimentResponse) : Option ℚ :=
  if truthyStr neighbourhood && decide (0 < nbResp.length) then
    match nbResp.find? (fun n => n.neighbourhood == neighbourhood.getD "") with
    | some d => d.positive_pct
    | none => some 0
  else if !truthyStr neighbourhood && cityResp.sentiment.isSome then
    match cityResp.sentiment with
    | some s => s.positive.percentage
    | none => none
  else some 0

/-- The sentiment object of claim C9 exactly as the spec writes it:
`{positive:{count:100},neutral:{count:20},negative:{count:5}}` - counts
only, no `percentage` fields. -/
def countsOnlySentiment : SentimentResponse :=
  ⟨some ⟨⟨some 100, none, none⟩, ⟨some 20, none, none⟩, ⟨some 5, none, none⟩⟩⟩

/-- The same counts as delivered by the real data service, which also
supplies the per-label `percentage` fields (100/125 × 100 = 80 for the
positive label). -/
def serverSentiment80 : SentimentResponse :=
  ⟨some ⟨⟨some 100, some 80, none⟩, ⟨some 20, some 16, none⟩, ⟨some 5, some 4, none⟩⟩⟩

/-!  Chart View Adapter instance lifecycle (claim C10, `Charts`,
part_002 lines 142-418).  -/

/-- The four chart kinds the Charts component owns (part_002 lines
143-146). -/
inductive ChartKind where
  | price
  | roomType
  | sentiment
  | occupancy
deriving DecidableEq

/-- The Charts component state: the four instance fields, plus (for the
resource accounting the claim is about) the multiset of chart instances
created and not yet destroyed, and a fresh-id counter. -/
structure ChartsState where
  priceChart : Option ℕ
  roomTypeChart : Option ℕ
  sentimentChart : Option ℕ
  occupancyChart : Option ℕ
  live : List (ChartKind × ℕ)
  nextId : ℕ
deriving DecidableEq

/-- Read the field that stores the instance of a kind. -/
def chartField (st : ChartsState) (k : ChartKind) : Option ℕ :=
  match k with
  | ChartKind.price => st.priceChart
  | ChartKind.roomType => st.roomTypeChart
  | ChartKind.sentiment => st.sentimentChart
  | ChartKind.occupancy => st.occupancyChart

/-- Store an instance in the field of a kind. -/
def setChartField (st : ChartsState) (k : ChartKind) (v : Option ℕ) : ChartsState :=
  match k with
  | ChartKind.price => { st with priceChart := v }
  | ChartKind.roomType => { st with roomTypeChart := v }
  | ChartKind.sentiment => { st with sentimentChart := v }
  | ChartKind.occupancy => { st with occupancyChart := v }

/-- The state at startup: all four fields `null`, nothing live (part_002
lines 143-146). -/
def initialCharts : ChartsState := ⟨none, none, none, none, [], 0⟩

/-- One `Charts.createXChart` call for kind `k` (part_002 lines 166-225,
230-275, 280-349, 354-411): `ok = false` is a failed data fetch - the
`catch` logs and leaves every instance untouched; on success the previously
held instance of that kind is destroyed (`this.xChart.destroy()`) before
the new `Chart` is created and stored (`this.xChart = new Chart(...)`). -/
def createChart (k : ChartKind) (ok : Bool) (st : ChartsState) : ChartsState :=
  if ok then
    let st1 :=
      match chartField st k with
      | some i => { st with live := st.live.erase (k, i) }
      | none => st
    let st2 := { st1 with live := st1.live ++ [(k, st.nextId)], nextId := st.nextId + 1 }
    setChartField st2 k (some st.nextId)
  else st

/-- An arbitrary interleaving of chart-creation calls (covering
`Charts.updateAll`, which issues one per kind, and any repetition of it). -/
def runCharts (cmds : List (ChartKind × Bool)) : ChartsState :=
  cmds.foldl (fun st c => createChart c.1 c.2 st) initialCharts

/-- Number of live (created and not destroyed) instances of a kind. -/
def liveCount (st : ChartsState) (k : ChartKind) : ℕ :=
  (st.live.filter (fun p => p.1 == k)).length

/-- The Charts invariant: the live instances of each kind are exactly the
one (or none) its field stores. -/
def ChartsInv (st : ChartsState) : Prop :=
  ∀ k : ChartKind, st.live.filter (fun p => p.1 == k) =
    (match chartField st k with
     | some i => [(k, i)]
     | none => [])

/-!  Filter State Controller event loop (claim C2, `App.loadData`,
part_002 lines 941-971).  -/

/-- The suspension point an in-flight `loadData` run is parked on.  The
suspension points are exactly the awaited network round-trips of the run:
the listing fetch, then the sentiment fetch inside `updateStats`, then the
chart data fetches inside `Charts.updateAll`. -/
inductive TaskStage where
  | awaitListings
  | awaitStats
  | awaitCharts
deriving DecidableEq

/-- The view state the Controller mutates across `loadData` runs, together
with the in-flight runs.  `markersEpoch`, `statsEpoch` and `chartsEpoch`
are bookkeeping (like `live` in `ChartsState`): the epoch whose fetched
data the map, the sentiment quick-stat, and the charts currently show.
`tasks` records, per in-flight epoch, which awaited sub-fetch its
`loadData` run is suspended on. -/
structure AppState where
  markersEpoch : Option ℕ
  markers : List Marker
  listingCount : Option ℕ
  statsEpoch : Option ℕ
  chartsEpoch : Option ℕ
  tasks : List (ℕ × TaskStage)
deriving DecidableEq

/-- An event of the single-threaded event loop, one per suspension point
of `App.loadData` (part_002 lines 941-971):
`start e` - the user triggers the filter change of epoch `e`; `loadData`
runs to its `await API.getListings` (line 946) and suspends;
`resolveListings e` - epoch e's listing fetch resolves and the
continuation synchronously updates the listing count (line 950) and the
map markers (line 953), then enters `updateStats` and suspends on its
sentiment fetch (lines 988-990);
`resolveStats e` - the sentiment fetch resolves, the sentiment quick-stat
is written (line 1003), and `loadData` enters `Charts.updateAll`
(line 964), suspending on the chart data fetches;
`resolveCharts e` - the chart fetches resolve and the charts are redrawn
for epoch e's scope; the run finishes.  (The four per-kind chart fetches
are modelled as resolving together; every statement proven below is a
per-callback or existence-of-trace statement that the finer per-kind
granularity preserves.) -/
inductive AppEvent where
  | start (e : ℕ)
  | resolveListings (e : ℕ)
  | resolveStats (e : ℕ)
  | resolveCharts (e : ℕ)
deriving DecidableEq

/-- The state at startup: nothing rendered, nothing in flight. -/
def initialApp : AppState := ⟨none, [], none, none, none, []⟩

/-- One step of the Controller.  `fetchOf e` is the listing set the epoch-e
listing fetch returns.  Every resolving callback applies its epoch's data
to its views unconditionally - the source consults no epoch token before
mutating. -/
def appStep (fetchOf : ℕ → List Listing) (st : AppState) (ev : AppEvent) : AppState :=
  match ev with
  | AppEvent.start e =>
      { st with tasks := st.tasks ++ [(e, TaskStage.awaitListings)] }
  | AppEvent.resolveListings e =>
      if (e, TaskStage.awaitListings) ∈ st.tasks then
        { st with
          markersEpoch := some e,
          markers := addListings st.markers (fetchOf e),
          listingCount := some (fetchOf e).length,
          tasks := st.tasks.erase (e, TaskStage.awaitListings) ++
            [(e, TaskStage.awaitStats)] }
      else st
  | AppEvent.resolveStats e =>
      if (e, TaskStage.awaitStats) ∈ st.tasks then
        { st with
          statsEpoch := some e,
          tasks := st.tasks.erase (e, TaskStage.awaitStats) ++
            [(e, TaskStage.awaitCharts)] }
      else st
  | AppEvent.resolveCharts e =>
      if (e, TaskStage.awaitCharts) ∈ st.tasks then
        { st with
          chartsEpoch := some e,
          tasks := st.tasks.erase (e, TaskStage.awaitCharts) }
      else st

/-- Run the Controller from startup through a sequence of events. -/
def runApp (fetchOf : ℕ → List Listing) (evs : List AppEvent) : AppState :=
  evs.foldl (appStep fetchOf) initialApp

/-- The fetch results of the C2 counterexample: epoch 0 returns one
listing, epoch 1 returns two. -/
def staleFetch : ℕ → List Listing :=
  fun e => if e = 0 then [exListingA] else [exListingA, exListingB]

/-- First half of the C2 counterexample trace: epochs 0 and 1 start, and
epoch 1's whole pipeline (listings, stats, charts) resolves and renders
while epoch 0's listing fetch is still in flight. -/
def staleTracePrefix : List AppEvent :=
  [AppEvent.start 0, AppEvent.start 1, AppEvent.resolveListings 1,
   AppEvent.resolveStats 1, AppEvent.resolveCharts 1]

/-- The full C2 counterexample trace: the superseded epoch 0 resolves only
after epoch 1 has completed and rendered. -/
def staleTrace : List AppEvent :=
  staleTracePrefix ++ [AppEvent.resolveListings 0, AppEvent.resolveStats 0,
    AppEvent.resolveCharts 0]

/-- A trace in which the two epochs' sub-fetches interleave so that the
map ends on epoch 1 while the charts end on epoch 0; both pipelines have
finished, so the divergence is permanent. -/
def divergeTrace : List AppEvent :=
  [AppEvent.start 0, AppEvent.start 1, AppEvent.resolveListings 0,
   AppEvent.resolveListings 1, AppEvent.resolveStats 1, AppEvent.resolveStats 0,
   AppEvent.resolveCharts 1, AppEvent.resolveCharts 0]

/-- C3 counterexample: the input `[zeroLatListing]` has exactly one record
with both coordinates present and a positive price, yet `addListings`
creates `0` markers for it, so the marker count does not equal the count of
records having both a latitude and a longitude and a positive price. -/
theorem spec_C3_counterexample :
    (addListings [] [zeroLatListing]).length = 0 ∧
    ([zeroLatListing].filter specHasCoordsAndPositivePrice).length = 1 :=
  ⟨rfl, rfl⟩

/-- C3 (amended): after `addListings` the number of markers equals the number
of input records whose latitude and longitude are present and nonzero (the
JS truthiness test) and whose price is positive; all markers present before
the call are removed first (the result does not depend on them); in
particular, given 3 records where one lacks latitude, exactly 2 markers are
created. -/
theorem spec_C3_addListings (old : List Marker) (L : List Listing) :
    (addListings old L).length = (L.filter validListing).length ∧
    addListings old L = addListings [] L ∧
    (addListings old [exListingA, exListingB, exListingNoLat]).length = 2 := by
  refine ⟨?_, rfl, rfl⟩
  cases L with
  | nil => rfl
  | cons a as => simp [addListings]

/-- C4: `getMarkerColor` is a three-tier step function of the price: a price
with no resolvable value (`null`/`undefined`, or `0`, which the data model
reads as unknown) yields the neutral gray tier, a nonzero price above 300
the "high" red tier, in (150, 300] the "mid" orange tier, and at or below
150 the "low" green tier. -/
theorem spec_C4_marker_tiers (p : ℚ) :
    getMarkerColor none = "#9ca3af" ∧
    getMarkerColor (some 0) = "#9ca3af" ∧
    (p ≠ 0 → 300 < p → getMarkerColor (some p) = "#ef4444") ∧
    (p ≠ 0 → 150 < p → p ≤ 300 → getMarkerColor (some p) = "#f59e0b") ∧
    (p ≠ 0 → p ≤ 150 → getMarkerColor (some p) = "#10b981") := by
  refine ⟨rfl, by norm_num [getMarkerColor], ?_, ?_, ?_⟩
  · intro hp h
    simp [getMarkerColor, hp, h]
  · intro hp h1 h2
    simp [getMarkerColor, hp, h1, not_lt.mpr h2]
  · intro hp h
    have h1 : ¬ (300 : ℚ) < p := by linarith
    have h2 : ¬ (150 : ℚ) < p := not_lt.mpr h
    simp [getMarkerColor, hp, h1, h2]

/-- C4 witness: the tier clauses of `spec_C4_marker_tiers` at the concrete
prices 350 (high), 200 (mid), 50 (low) and at `null` (neutral). -/
theorem spec_C4_marker_tiers_witness :
    getMarkerColor (some 350) = "#ef4444" ∧
    getMarkerColor (some 200) = "#f59e0b" ∧
    getMarkerColor (some 50) = "#10b981" ∧
    getMarkerColor none = "#9ca3af" :=
  ⟨(spec_C4_marker_tiers 350).2.2.1 (by norm_num) (by norm_num),
   (spec_C4_marker_tiers 200).2.2.2.1 (by norm_num) (by norm_num) (by norm_num),
   (spec_C4_marker_tiers 50).2.2.2.2 (by norm_num) (by norm_num),
   (spec_C4_marker_tiers 0).1⟩

/-- C1 counterexample: on a failed fetch `API.getListings` re-throws the
failure instead of returning an empty/default result, so the claim that no
Facade operation propagates the failure to its caller is false. -/
theorem spec_C1_counterexample :
    getListings (Except.error ()) = Except.error () := rfl

/-- C1 (amended): on transport/parse failure, `getNeighbourhoods`,
`getTopHosts` and `getWordCloud` log and return an explicit empty/default
result and `getOccupancy` falls back to the mock data, but `getListings`,
`getPriceStats`, `getRoomTypeDistribution` and `getSentiment` log and
re-throw the failure to their caller. -/
theorem spec_C1_facade_failures (nb : Option String) (rand : ℚ) (limit : ℕ) :
    getNeighbourhoods (Except.error ()) = [] ∧
    getTopHosts (Except.error ()) nb limit = ⟨none, none, []⟩ ∧
    getWordCloud (Except.error ()) = [] ∧
    getOccupancy (Except.error ()) nb rand =
      OccupancyData.mock (getMockOccupancy nb rand) ∧
    getListings (Except.error ()) = Except.error () ∧
    getPriceStats (Except.error ()) nb = Except.error () ∧
    getRoomTypeDistribution (Except.error ()) nb = Except.error () ∧
    getSentiment (Except.error ()) = Except.error () :=
  ⟨rfl, rfl, rfl, rfl, rfl, rfl, rfl, rfl⟩

/-!  Properties of the room-type aggregation (claim C5).  -/

/-- The accumulation step of `encounterKeys` preserves `Nodup` and adds
exactly the traversed keys. -/
theorem encounterKeys_foldl (ks : List String) :
    ∀ (acc : List String), acc.Nodup →
      (ks.foldl (fun acc k => if k ∈ acc then acc else acc ++ [k]) acc).Nodup ∧
      ∀ a, a ∈ ks.foldl (fun acc k => if k ∈ acc then acc else acc ++ [k]) acc ↔
        (a ∈ acc ∨ a ∈ ks) := by
  induction ks with
  | nil => intro acc hacc; simpa using hacc
  | cons k ks ih =>
      intro acc hacc
      rw [List.foldl_cons]
      by_cases hk : k ∈ acc
      · rw [if_pos hk]
        obtain ⟨h1, h2⟩ := ih acc hacc
        refine ⟨h1, fun a => ?_⟩
        rw [h2 a, List.mem_cons]
        constructor
        · tauto
        · rintro (ha | rfl | ha) <;> tauto
      · rw [if_neg hk]
        have hacc2 : (acc ++ [k]).Nodup := by
          simp [List.nodup_append, hacc, hk]
        obtain ⟨h1, h2⟩ := ih (acc ++ [k]) hacc2
        refine ⟨h1, fun a => ?_⟩
        rw [h2 a]
        simp only [List.mem_append, List.mem_cons, List.not_mem_nil, or_false]
        tauto

/-- `encounterKeys` never repeats a key. -/
theorem encounterKeys_nodup (ks : List String) : (encounterKeys ks).Nodup :=
  (encounterKeys_foldl ks [] List.nodup_nil).1

/-- `encounterKeys` lists exactly the keys that occur. -/
theorem mem_encounterKeys (ks : List String) (a : String) :
    a ∈ encounterKeys ks ↔ a ∈ ks := by
  rw [encounterKeys, (encounterKeys_foldl ks [] List.nodup_nil).2 a]
  simp

/-- `encounterKeys` is a permutation of Mathlib's `dedup`. -/
theorem encounterKeys_perm_dedup (ks : List String) :
    List.Perm (encounterKeys ks) ks.dedup :=
  (List.perm_ext_iff_of_nodup (encounterKeys_nodup ks) (List.nodup_dedup ks)).mpr
    (fun a => by rw [mem_encounterKeys, List.mem_dedup])

/-- The group sizes of a grouping partition the input: summing the
occurrence counts over the distinct keys gives back the length. -/
theorem sum_count_encounterKeys (ks : List String) :
    ((encounterKeys ks).map (fun k => ks.count k)).sum = ks.length := by
  have hperm := (encounterKeys_perm_dedup ks).map (fun k => ks.count k)
  rw [hperm.sum_eq, List.sum_map_count_dedup_eq_length]

/-- Rounding to one decimal (ties up) moves a value by at most `1/20`. -/
theorem round1_sub_le (q : ℚ) : |round1 q - q| ≤ 1 / 20 := by
  have h1 : (⌊q * 10 + 1 / 2⌋ : ℚ) ≤ q * 10 + 1 / 2 := Int.floor_le _
  have h2 : q * 10 + 1 / 2 < (⌊q * 10 + 1 / 2⌋ : ℚ) + 1 := Int.lt_floor_add_one _
  rw [round1, abs_le]
  constructor <;> linarith

/-- Summing a pointwise bound on `|f - g|` over a list. -/
theorem abs_sum_sub_le {α : Type} (c : ℚ) :
    ∀ (ks : List α) (f g : α → ℚ), (∀ k ∈ ks, |f k - g k| ≤ c) →
      |(ks.map f).sum - (ks.map g).sum| ≤ ks.length * c := by
  intro ks
  induction ks with
  | nil => intro f g h; simp
  | cons k ks ih =>
      intro f g h
      have h1 := h k (List.mem_cons_self k ks)
      have h2 := ih f g (fun a ha => h a (List.mem_cons_of_mem _ ha))
      simp only [List.map_cons, List.sum_cons, List.length_cons]
      have heq : f k + (ks.map f).sum - (g k + (ks.map g).sum) =
          (f k - g k) + ((ks.map f).sum - (ks.map g).sum) := by ring
      rw [heq]
      calc |(f k - g k) + ((ks.map f).sum - (ks.map g).sum)|
          ≤ |f k - g k| + |(ks.map f).sum - (ks.map g).sum| := abs_add _ _
        _ ≤ c + ks.length * c := by linarith
        _ = (ks.length + 1) * c := by ring
        _ = ((ks.length + 1 : ℕ) : ℚ) * c := by push_cast; ring

/-- The exact (unrounded) group percentages of a non-empty record set sum
to `100`. -/
theorem sum_exact_percentages (L : List Listing) (hL : L ≠ []) :
    ((encounterKeys (L.map roomKeyOf)).map
      (fun k => ((L.map roomKeyOf).count k : ℚ) / (L.length : ℚ) * 100)).sum = 100 := by
  have hlen : (0 : ℚ) < (L.length : ℚ) := by
    have := List.length_pos.mpr hL
    exact_mod_cast this
  have hfun : ∀ k : String,
      ((L.map roomKeyOf).count k : ℚ) / (L.length : ℚ) * 100 =
        ((L.map roomKeyOf).count k : ℚ) * (100 / (L.length : ℚ)) := by
    intro k; ring
  calc ((encounterKeys (L.map roomKeyOf)).map
          (fun k => ((L.map roomKeyOf).count k : ℚ) / (L.length : ℚ) * 100)).sum
      = ((encounterKeys (L.map roomKeyOf)).map
          (fun k => ((L.map roomKeyOf).count k : ℚ) * (100 / (L.length : ℚ)))).sum := by
        simp only [hfun]
    _ = ((encounterKeys (L.map roomKeyOf)).map
          (fun k => ((L.map roomKeyOf).count k : ℚ))).sum * (100 / (L.length : ℚ)) :=
        List.sum_map_mul_right _ _ _
    _ = (((encounterKeys (L.map roomKeyOf)).map
          (fun k => (L.map roomKeyOf).count k)).sum : ℚ) * (100 / (L.length : ℚ)) := by
        rw [Nat.cast_list_sum, List.map_map]; rfl
    _ = ((L.map roomKeyOf).length : ℚ) * (100 / (L.length : ℚ)) := by
        rw [sum_count_encounterKeys]
    _ = (L.length : ℚ) * (100 / (L.length : ℚ)) := by rw [List.length_map]
    _ = 100 := by field_simp

/-- C5 (amended): records missing a room-type label are bucketed under
"Unknown"; each group's percentage equals groupCount / totalCount × 100
rounded to one decimal place, where totalCount is the number of records
supplied; an empty record set yields an empty distribution, not an error;
and for every non-empty record set the reported percentages sum to 100
within `0.05` per group (the flat `0.1` tolerance the claim states fails
once three or more group percentages round half up, see the
counterexample). -/
theorem spec_C5_room_type_distribution (L : List Listing) :
    roomTypeDistribution [] = [] ∧
    (∀ l : Listing, l.room_type = none → roomKeyOf l = "Unknown") ∧
    (∀ e ∈ roomTypeDistribution L,
      e.count = (L.map roomKeyOf).count e._id ∧
      e.percentage = if 0 < L.length
        then round1 ((e.count : ℚ) / (L.length : ℚ) * 100) else 0) ∧
    (L ≠ [] → |sumPercentages L - 100| ≤
      ((roomTypeDistribution L).length : ℚ) * (1 / 20)) := by
  refine ⟨rfl, ?_, ?_, ?_⟩
  · intro l h
    simp [roomKeyOf, truthyStr, h]
  · intro e he
    simp only [roomTypeDistribution, List.mem_map] at he
    obtain ⟨k, hk, rfl⟩ := he
    exact ⟨rfl, rfl⟩
  · intro hL
    have hlen0 : 0 < L.length := List.length_pos.mpr hL
    have hform : sumPercentages L =
        ((encounterKeys (L.map roomKeyOf)).map
          (fun k => round1 (((L.map roomKeyOf).count k : ℚ) / (L.length : ℚ) * 100))).sum := by
      simp only [sumPercentages, roomTypeDistribution, List.map_map, Function.comp_def]
      simp [hlen0]
    have hexact := sum_exact_percentages L hL
    have hbound := abs_sum_sub_le (1 / 20) (encounterKeys (L.map roomKeyOf))
      (fun k => round1 (((L.map roomKeyOf).count k : ℚ) / (L.length : ℚ) * 100))
      (fun k => ((L.map roomKeyOf).count k : ℚ) / (L.length : ℚ) * 100)
      (fun k _ => round1_sub_le _)
    have hlength : (roomTypeDistribution L).length =
        (encounterKeys (L.map roomKeyOf)).length := by
      simp [roomTypeDistribution]
    rw [hexact] at hbound
    rw [hform, hlength]
    exact hbound

/-- C5 counterexample: for the non-empty 16-record set above the reported
percentages sum to 100.2, which is not within the claimed tolerance of 0.1
of 100. -/
theorem spec_C5_counterexample :
    sumPercentages roomTypeSixteen = 501 / 5 ∧
    ¬ |sumPercentages roomTypeSixteen - 100| ≤ 1 / 10 := by
  have hfa : (⌊(25 : ℚ) / 4 * 10 + 1 / 2⌋ : ℤ) = 63 := by
    rw [Int.floor_eq_iff]
    constructor <;> norm_num
  have ra : round1 ((25 : ℚ) / 4) = 63 / 10 := by
    rw [round1, hfa]; norm_num
  have hfd : (⌊(325 : ℚ) / 4 * 10 + 1 / 2⌋ : ℤ) = 813 := by
    rw [Int.floor_eq_iff]
    constructor <;> norm_num
  have rd : round1 ((325 : ℚ) / 4) = 813 / 10 := by
    rw [round1, hfd]; norm_num
  have e1 : roomTypeSixteen.map roomKeyOf =
      ["a", "b", "c", "d", "d", "d", "d", "d", "d", "d", "d", "d", "d", "d", "d", "d"] :=
    rfl
  have e2 : encounterKeys
      ["a", "b", "c", "d", "d", "d", "d", "d", "d", "d", "d", "d", "d", "d", "d", "d"] =
      ["a", "b", "c", "d"] := rfl
  have hlen : roomTypeSixteen.length = 16 := rfl
  have hc1 : List.count "a"
      ["a", "b", "c", "d", "d", "d", "d", "d", "d", "d", "d", "d", "d", "d", "d", "d"] = 1 :=
    rfl
  have hc2 : List.count "b"
      ["a", "b", "c", "d", "d", "d", "d", "d", "d", "d", "d", "d", "d", "d", "d", "d"] = 1 :=
    rfl
  have hc3 : List.count "c"
      ["a", "b", "c", "d", "d", "d", "d", "d", "d", "d", "d", "d", "d", "d", "d", "d"] = 1 :=
    rfl
  have hc4 : List.count "d"
      ["a", "b", "c", "d", "d", "d", "d", "d", "d", "d", "d", "d", "d", "d", "d", "d"] = 13 :=
    rfl
  have h : sumPercentages roomTypeSixteen = 501 / 5 := by
    simp only [sumPercentages, roomTypeDistribution, e1, e2, hlen, List.map_cons,
      List.map_nil, List.sum_cons, List.sum_nil, hc1, hc2, hc3, hc4]
    norm_num [ra, rd]
  refine ⟨h, ?_⟩
  have habs : (501 : ℚ) / 5 - 100 = 1 / 5 := by norm_num
  rw [h, habs, abs_of_pos (by norm_num : (0 : ℚ) < 1 / 5)]
  norm_num

/-- C5 witness: `spec_C5_room_type_distribution` instantiated at the
concrete non-empty record set `[roomA]` (whose one group "a" has one
record) and, for the "Unknown" clause, at a record with no room-type
label. -/
theorem spec_C5_witness :
    (|sumPercentages [roomA] - 100| ≤
      ((roomTypeDistribution [roomA]).length : ℚ) * (1 / 20)) ∧
    (⟨"a", 1, round1 ((1 : ℚ) / 1 * 100)⟩ : RoomTypeEntry).count =
      ([roomA].map roomKeyOf).count "a" ∧
    roomKeyOf blankListing = "Unknown" :=
  ⟨(spec_C5_room_type_distribution [roomA]).2.2.2 (by simp),
   ((spec_C5_room_type_distribution [roomA]).2.2.1 ⟨"a", 1, round1 ((1 : ℚ) / 1 * 100)⟩
     (by
       have hd : roomTypeDistribution [roomA] =
           [⟨"a", 1, round1 ((1 : ℚ) / 1 * 100)⟩] := by
         simp [roomTypeDistribution, encounterKeys, roomA, blankListing, roomKeyOf,
           truthyStr]
       rw [hd]
       exact List.mem_singleton.mpr rfl)).1,
   (spec_C5_room_type_distribution []).2.1 blankListing rfl⟩

/-- Unfold one step of the association-list lookup. -/
theorem findAcc_cons (k : HostKey) (e : HostKey × HostAcc)
    (m : List (HostKey × HostAcc)) :
    findAcc k (e :: m) = if e.1 = k then some e.2 else findAcc k m := by
  by_cases h : e.1 = k
  · simp [findAcc, h]
  · simp [findAcc, h]

/-- Bumping the entry at key `k` rewrites the lookup at `k` and nothing
else. -/
theorem findAcc_map_bump_self (k : HostKey) (x : Listing) :
    ∀ (m : List (HostKey × HostAcc)),
      findAcc k (m.map (fun p => if p.1 == k then (p.1, bumpHost p.2 x) else p)) =
        (findAcc k m).map (fun a => bumpHost a x) := by
  intro m
  induction m with
  | nil => rfl
  | cons p m ih =>
      simp only [List.map_cons]
      by_cases hpk : p.1 = k
      · rw [if_pos (beq_iff_eq.mpr hpk), findAcc_cons, findAcc_cons,
          if_pos hpk, if_pos hpk]
        rfl
      · rw [if_neg (by simpa using hpk), findAcc_cons, findAcc_cons,
          if_neg hpk, if_neg hpk]
        exact ih

/-- Bumping the entry at a different key leaves the lookup at `k`
unchanged. -/
theorem findAcc_map_bump_ne (k kx : HostKey) (hne : kx ≠ k) (x : Listing) :
    ∀ (m : List (HostKey × HostAcc)),
      findAcc k (m.map (fun p => if p.1 == kx then (p.1, bumpHost p.2 x) else p)) =
        findAcc k m := by
  intro m
  induction m with
  | nil => rfl
  | cons p m ih =>
      simp only [List.map_cons]
      by_cases hpk : p.1 = kx
      · have hk2 : p.1 ≠ k := by rw [hpk]; exact hne
        rw [if_pos (beq_iff_eq.mpr hpk), findAcc_cons, findAcc_cons,
          if_neg hk2, if_neg hk2]
        exact ih
      · rw [if_neg (by simpa using hpk), findAcc_cons, findAcc_cons]
        by_cases hk2 : p.1 = k
        · rw [if_pos hk2, if_pos hk2]
        · rw [if_neg hk2, if_neg hk2]
          exact ih

/-- Appending a fresh entry is invisible to lookups of other keys. -/
theorem findAcc_append_of_ne (k : HostKey) (e : HostKey × HostAcc)
    (hne : e.1 ≠ k) : ∀ (m : List (HostKey × HostAcc)),
      findAcc k (m ++ [e]) = findAcc k m := by
  intro m
  induction m with
  | nil => simp [findAcc_cons, hne, findAcc]
  | cons p m ih =>
      rw [List.cons_append, findAcc_cons, findAcc_cons]
      by_cases hk2 : p.1 = k
      · rw [if_pos hk2, if_pos hk2]
      · rw [if_neg hk2, if_neg hk2]
        exact ih

/-- Appending an entry for `k` when `k` is absent makes the lookup return
it. -/
theorem findAcc_append_of_none (k : HostKey) (e : HostKey × HostAcc)
    (hke : e.1 = k) : ∀ (m : List (HostKey × HostAcc)), findAcc k m = none →
      findAcc k (m ++ [e]) = some e.2 := by
  intro m
  induction m with
  | nil => intro h; simp [findAcc_cons, hke, findAcc]
  | cons p m ih =>
      intro h
      rw [findAcc_cons] at h
      by_cases hk2 : p.1 = k
      · rw [if_pos hk2] at h; exact absurd h (by simp)
      · rw [if_neg hk2] at h
        rw [List.cons_append, findAcc_cons, if_neg hk2]
        exact ih h

/-- A key is absent from the accumulator association list iff `any` fails
on it (the JS `!hostCounts[hostId]` test). -/
theorem findAcc_eq_none_iff (k : HostKey) (m : List (HostKey × HostAcc)) :
    findAcc k m = none ↔ m.any (fun p => p.1 == k) = false := by
  induction m with
  | nil => simp [findAcc]
  | cons p m ih =>
      by_cases hk2 : p.1 = k
      · simp [findAcc, hk2]
      · rw [findAcc_cons, if_neg hk2, ih]
        simp [hk2]

/-- One `foldl` step at the end of the record list. -/
theorem buildHosts_append (L : List Listing) (x : Listing) :
    buildHosts (L ++ [x]) = updHost (buildHosts L) x := by
  simp [buildHosts, List.foldl_append]

/-- Correctness of the `hostCounts` accumulation loop: after the whole
`forEach`, the accumulator of host key `k` holds the key, the name of the
first record encountered for that host, the number of all of that host's
records, and the price sum and count over its records with truthy price -
and no accumulator exists for a host with no records. -/
theorem buildHosts_findAcc (k : HostKey) (L : List Listing) :
    findAcc k (buildHosts L) =
      match hostRecords k L with
      | [] => none
      | l :: _ =>
          some ⟨k, hostNameOf l, (hostRecords k L).length,
            ((hostPriced k L).map (fun y => y.price.getD 0)).sum,
            (hostPriced k L).length⟩ := by
  induction L using List.reverseRecOn with
  | nil => rfl
  | append_singleton L x ih =>
      rw [buildHosts_append]
      by_cases hk : hostKeyOf x = k
      · have hrec : hostRecords k (L ++ [x]) = hostRecords k L ++ [x] := by
          simp [hostRecords, List.filter_append, hk]
        have hpr : hostPriced k (L ++ [x]) =
            hostPriced k L ++ (if truthyPrice x then [x] else []) := by
          by_cases hp : truthyPrice x = true
          · simp [hostPriced, hrec, List.filter_append, hp]
          · simp [hostPriced, hrec, List.filter_append,
              Bool.eq_false_iff.mpr hp]
        simp only [updHost]
        rw [hk]
        by_cases hany : ((buildHosts L).any (fun p => p.1 == k)) = true
        · rw [if_pos hany, findAcc_map_bump_self k x, ih]
          cases hrl : hostRecords k L with
          | nil =>
              exfalso
              have hnone : findAcc k (buildHosts L) = none := by rw [ih, hrl]
              rw [findAcc_eq_none_iff] at hnone
              rw [hnone] at hany
              exact absurd hany (by simp)
          | cons l rest =>
              rw [hrec, hpr, hrl]
              by_cases hp : truthyPrice x = true
              · simp [bumpHost, hp, List.length_append, List.map_append,
                  List.sum_append]
              · simp [bumpHost, Bool.eq_false_iff.mpr hp, List.length_append,
                  List.map_append, List.sum_append]
        · rw [if_neg hany, findAcc_map_bump_self k x]
          have hnone : findAcc k (buildHosts L) = none := by
            rw [findAcc_eq_none_iff]
            exact Bool.eq_false_iff.mpr hany
          rw [findAcc_append_of_none k (k, ⟨k, hostNameOf x, 0, 0, 0⟩) rfl
            (buildHosts L) hnone]
          have hrl : hostRecords k L = [] := by
            cases hrl2 : hostRecords k L with
            | nil => rfl
            | cons l rest =>
                rw [ih, hrl2] at hnone
                exact absurd hnone (by simp)
          have hprl : hostPriced k L = [] := by simp [hostPriced, hrl]
          rw [hrec, hpr, hrl, hprl]
          by_cases hp : truthyPrice x = true
          · simp [bumpHost, hp]
          · simp [bumpHost, Bool.eq_false_iff.mpr hp]
      · have hrec : hostRecords k (L ++ [x]) = hostRecords k L := by
          simp [hostRecords, List.filter_append, hk]
        have hpr : hostPriced k (L ++ [x]) = hostPriced k L := by
          simp [hostPriced, hrec]
        simp only [updHost]
        by_cases hany : ((buildHosts L).any (fun p => p.1 == hostKeyOf x)) = true
        · rw [if_pos hany, findAcc_map_bump_ne k (hostKeyOf x) hk x, ih, hrec, hpr]
        · rw [if_neg hany, findAcc_map_bump_ne k (hostKeyOf x) hk x,
            findAcc_append_of_ne k (hostKeyOf x, ⟨hostKeyOf x, hostNameOf x, 0, 0, 0⟩)
              hk (buildHosts L), ih, hrec, hpr]

/-- C7 (amended): records are grouped by host identifier, with records
whose host id is missing (or `0`, which the JS truthiness test treats the
same way) bucketed under the sentinel id "unknown"; a host's listing count
counts all of that host's records while the price sum and price count
accumulate only listings with a known nonzero price (the truthiness test
`if (listing.price)` also admits negative prices, see the counterexample);
and the host's average price equals priceSum / priceCount, or `0` when no
listing of that host has a known price. -/
theorem spec_C7_host_aggregates (k : HostKey) (L : List Listing) :
    (findAcc k (buildHosts L)).map toHostEntry =
      (match hostRecords k L with
       | [] => none
       | l :: _ =>
          some ⟨k, hostNameOf l, (hostRecords k L).length,
            if (hostPriced k L).length > 0
            then ((hostPriced k L).map (fun y => y.price.getD 0)).sum /
              ((hostPriced k L).length : ℚ)
            else 0⟩) ∧
    hostKeyOf blankListing = HostKey.str "unknown" ∧
    hostKeyOf { blankListing with host_id := some 0 } = HostKey.str "unknown" := by
  refine ⟨?_, rfl, rfl⟩
  rw [buildHosts_findAcc]
  cases hrl : hostRecords k L with
  | nil => rfl
  | cons l rest => simp [toHostEntry]

/-- C7 counterexample: for a host whose only listing has the known negative
price -50, the aggregation reports the average price -50 even though the
host has no listing with a known positive price - by the claim the price
sum and count should then be empty and the average 0. -/
theorem spec_C7_counterexample :
    (hostsArray [negPriceListing]).map (fun e => e.avg_price) = [(-50 : ℚ)] ∧
    ([negPriceListing].filter (fun l => match l.price with
        | some p => decide (p > 0)
        | none => false)) = [] := by
  constructor
  · have hb : buildHosts [negPriceListing] =
        [(HostKey.num 1, ⟨HostKey.num 1, "Unknown Host", 1, -50, 1⟩)] := by
      simp [buildHosts, updHost, negPriceListing, blankListing, hostKeyOf,
        hostNameOf, truthyStr, truthyPrice, truthyNum, bumpHost]
    simp [hostsArray, jsObjectValues, hb, isNumKey, toHostEntry, List.mergeSort]
  · rfl

/-- The comparison handed to the stable sort of `getTopHosts` is
transitive. -/
theorem hostLe_trans (a b c : HostEntry)
    (hab : decide (b.listing_count ≤ a.listing_count) = true)
    (hbc : decide (c.listing_count ≤ b.listing_count) = true) :
    decide (c.listing_count ≤ a.listing_count) = true := by
  simp only [decide_eq_true_eq] at hab hbc ⊢
  omega

/-- The comparison handed to the stable sort of `getTopHosts` is total. -/
theorem hostLe_total (a b : HostEntry) :
    (decide (b.listing_count ≤ a.listing_count) ||
      decide (a.listing_count ≤ b.listing_count)) = true := by
  simp only [Bool.or_eq_true, decide_eq_true_eq]
  omega

/-- C6 (amended): the top-hosts output is sorted non-increasing by listing
count; its length is the requested limit capped by the number of hosts;
ties are broken by the enumeration order of the `hostCounts` object keys
(numeric host ids ascending before non-numeric keys - the stable sort
preserves that order, but it is not the hosts' encounter order in the
input, see the counterexample); and the source's default for the limit
parameter is 10. -/
theorem spec_C6_top_hosts_order (L : List Listing) (limit : ℕ) :
    (topHosts L limit).Pairwise
      (fun a b => b.listing_count ≤ a.listing_count) ∧
    (topHosts L limit).length = min limit (hostsArray L).length ∧
    (∀ a b : HostEntry, a.listing_count = b.listing_count →
      List.Sublist [a, b] (hostsArray L) →
      List.Sublist [a, b] (hostsSorted L)) ∧
    topHosts L topHostsDefaultLimit = (hostsSorted L).take 10 := by
  refine ⟨?_, ?_, ?_, rfl⟩
  · have hs := List.sorted_mergeSort
      (fun a b c => hostLe_trans a b c) (fun a b => hostLe_total a b)
      (hostsArray L)
    have hp : (hostsSorted L).Pairwise
        (fun a b => b.listing_count ≤ a.listing_count) :=
      hs.imp (fun h => of_decide_eq_true h)
    exact hp.sublist (List.take_sublist limit (hostsSorted L))
  · rw [topHosts, List.length_take, hostsSorted, List.length_mergeSort]
  · intro a b hcount hsub
    exact List.pair_sublist_mergeSort
      (fun a b c => hostLe_trans a b c) (fun a b => hostLe_total a b)
      (by rw [hcount]; simp) hsub

/-- C6 counterexample: hosts 5 and 3 are encountered in the order 5, 3 and
are tied at one listing each, yet the output order is 3, 5 - the JS object
enumerates numeric host-id keys in ascending numeric order, not in
encounter order, so the tie is not broken by the hosts' original encounter
order. -/
theorem spec_C6_counterexample :
    (topHosts [hostFive, hostThree] 10).map (fun e => e._id) =
      [HostKey.num 3, HostKey.num 5] ∧
    [hostFive, hostThree].map hostKeyOf = [HostKey.num 5, HostKey.num 3] ∧
    (topHosts [hostFive, hostThree] 10).map (fun e => e._id) ≠
      [HostKey.num 5, HostKey.num 3] := by
  have hb : buildHosts [hostFive, hostThree] =
      [(HostKey.num 5, ⟨HostKey.num 5, "A", 1, 0, 0⟩),
       (HostKey.num 3, ⟨HostKey.num 3, "B", 1, 0, 0⟩)] := by
    simp [buildHosts, updHost, hostFive, hostThree, blankListing, hostKeyOf,
      hostNameOf, truthyStr, truthyPrice, truthyNum, bumpHost]
  have harr : hostsArray [hostFive, hostThree] =
      [⟨HostKey.num 3, "B", 1, 0⟩, ⟨HostKey.num 5, "A", 1, 0⟩] := by
    simp [hostsArray, jsObjectValues, hb, isNumKey, numOfKey, toHostEntry,
      List.mergeSort, List.merge]
  have hsort : hostsSorted [hostFive, hostThree] =
      [⟨HostKey.num 3, "B", 1, 0⟩, ⟨HostKey.num 5, "A", 1, 0⟩] := by
    simp [hostsSorted, harr, List.mergeSort, List.merge]
  refine ⟨?_, rfl, ?_⟩
  · simp [topHosts, hsort]
  · simp [topHosts, hsort]

/-- C6 witness: the tie-break clause of `spec_C6_top_hosts_order` at the
concrete two-host input (both hosts have one listing; they appear in the
object enumeration order 3, 5 and keep that order through the sort). -/
theorem spec_C6_witness :
    List.Sublist
      [(⟨HostKey.num 3, "B", 1, 0⟩ : HostEntry), ⟨HostKey.num 5, "A", 1, 0⟩]
      (hostsSorted [hostFive, hostThree]) := by
  have harr : hostsArray [hostFive, hostThree] =
      [⟨HostKey.num 3, "B", 1, 0⟩, ⟨HostKey.num 5, "A", 1, 0⟩] := by
    have hb : buildHosts [hostFive, hostThree] =
        [(HostKey.num 5, ⟨HostKey.num 5, "A", 1, 0, 0⟩),
         (HostKey.num 3, ⟨HostKey.num 3, "B", 1, 0, 0⟩)] := by
      simp [buildHosts, updHost, hostFive, hostThree, blankListing, hostKeyOf,
        hostNameOf, truthyStr, truthyPrice, truthyNum, bumpHost]
    simp [hostsArray, jsObjectValues, hb, isNumKey, numOfKey, toHostEntry,
      List.mergeSort, List.merge]
  exact (spec_C6_top_hosts_order [hostFive, hostThree] 10).2.2.1 _ _ rfl
    (harr ▸ List.Sublist.refl _)

/-!  Properties of the mock occupancy fallback (claim C8).  -/

/-- The clamp of map.js line 359 stays inside `[0, 100]`. -/
theorem clamp100_mem (x : ℚ) : 0 ≤ clamp100 x ∧ clamp100 x ≤ 100 := by
  constructor
  · exact le_max_left 0 _
  · rw [clamp100, max_le_iff]
    constructor
    · norm_num
    · exact min_le_left 100 _

/-- C8: every call of the mock occupancy fallback yields exactly twelve
monthly points carrying the month labels in calendar order, each rate
clamped to `[0, 100]`; with no neighbourhood selected the perturbation is
zero, so the call is deterministic (independent of the random draw) and the
twelve rates equal the fixed seasonal baseline, which peaks in summer
(July). -/
theorem spec_C8_mock_occupancy (nb : Option String) (rand rand2 : ℚ) :
    (getMockOccupancy nb rand).by_month.length = 12 ∧
    (getMockOccupancy nb rand).by_month.map (fun p => p.month) = occupancyMonths ∧
    (∀ p ∈ (getMockOccupancy nb rand).by_month,
      0 ≤ p.occupancy_rate ∧ p.occupancy_rate ≤ 100) ∧
    getMockOccupancy none rand = getMockOccupancy none rand2 ∧
    (getMockOccupancy none rand).by_month.map (fun p => p.occupancy_rate) =
      occupancyBaseRates := by
  refine ⟨rfl, rfl, ?_, rfl, ?_⟩
  · intro p hp
    simp only [getMockOccupancy, List.mem_map] at hp
    obtain ⟨q, hq, rfl⟩ := hp
    exact clamp100_mem _
  · have hz : ∀ b : ℚ, clamp100 (b + 0) = clamp100 b := by
      intro b; rw [add_zero]
    simp only [getMockOccupancy, truthyStr]
    norm_num [clamp100, occupancyMonths, occupancyBaseRates, List.enum,
      List.enumFrom, min_def, max_def]

/-- C8 witness: `spec_C8_mock_occupancy` instantiated at the January point
of the city-wide call with random draw 0. -/
theorem spec_C8_witness :
    0 ≤ clamp100 ((45 : ℚ) + 0) ∧ clamp100 ((45 : ℚ) + 0) ≤ 100 :=
  (spec_C8_mock_occupancy none 0 0).2.2.1
    ⟨"2024-01", "Jan", clamp100 ((45 : ℚ) + 0)⟩
    (by exact List.Mem.head _)

/-- C9 counterexample: given the literal counts-only sentiment object of
the claim, `updateStats` city-wide reads the absent
`sentiment.positive.percentage` field and obtains `undefined`, not the
80.0 the claim derives from the counts. -/
theorem spec_C9_counterexample :
    updateStatsPct none [] countsOnlySentiment = none ∧
    updateStatsPct none [] countsOnlySentiment ≠ some ((100 : ℚ) / 125 * 100) := by
  refine ⟨rfl, ?_⟩
  intro h
  have h2 : (none : Option ℚ) = some ((100 : ℚ) / 125 * 100) := h
  exact Option.noConfusion h2

/-- C9 (amended): in the Unscoped state `updateStats` uses the
server-supplied `sentiment.positive.percentage` field as the quick-stat
positive percentage - it does not derive it from the counts; when the
`sentiment` field is missing it falls back to `0`; and for the claim's
counts 100/20/5 it shows 80.0 exactly when the server supplies the
percentage 80 = 100/125 × 100 alongside those counts. -/
theorem spec_C9_city_positive_pct (s : SentimentStats) (nbResp : List NbSentiment) :
    updateStatsPct none nbResp { sentiment := some s } = s.positive.percentage ∧
    updateStatsPct none nbResp { sentiment := none } = some 0 ∧
    updateStatsPct none [] serverSentiment80 = some 80 ∧
    (100 : ℚ) / 125 * 100 = 80 := by
  refine ⟨rfl, rfl, rfl, by norm_num⟩

/-- `setChartField` only touches the four instance fields. -/
theorem setChartField_live (st : ChartsState) (k : ChartKind) (v : Option ℕ) :
    (setChartField st k v).live = st.live := by
  cases k <;> rfl

/-- Reading a field after writing one. -/
theorem chartField_setChartField (st : ChartsState) (k k2 : ChartKind) (v : Option ℕ) :
    chartField (setChartField st k v) k2 = if k2 = k then v else chartField st k2 := by
  cases k <;> cases k2 <;> simp [chartField, setChartField]

/-- Updating `live` and `nextId` leaves every instance field unchanged. -/
theorem chartField_live_update (st : ChartsState) (l : List (ChartKind × ℕ))
    (n : ℕ) (k : ChartKind) :
    chartField { st with live := l, nextId := n } k = chartField st k := by
  cases k <;> rfl

/-- Updating `live` alone leaves every instance field unchanged. -/
theorem chartField_live_only (st : ChartsState) (l : List (ChartKind × ℕ))
    (k : ChartKind) :
    chartField { st with live := l } k = chartField st k := by
  cases k <;> rfl

/-- Erasing the one live instance of a kind leaves no live instance of that
kind. -/
theorem filter_erase_single (k : ChartKind) (i : ℕ) :
    ∀ (l : List (ChartKind × ℕ)),
      l.filter (fun p => p.1 == k) = [(k, i)] →
      (l.erase (k, i)).filter (fun p => p.1 == k) = [] := by
  intro l
  induction l with
  | nil => intro h; simp at h
  | cons p l ih =>
      intro h
      rw [List.filter_cons] at h
      by_cases hpk : p.1 = k
      · rw [if_pos (by simp [hpk])] at h
        have hp : p = (k, i) := (List.cons.injEq _ _ _ _).mp h |>.1
        have hl : l.filter (fun p => p.1 == k) = [] :=
          ((List.cons.injEq _ _ _ _).mp h).2
        rw [List.erase_cons, if_pos (by simp [hp])]
        exact hl
      · rw [if_neg (by simp [hpk])] at h
        have hpne : p ≠ (k, i) := by
          intro hc; rw [hc] at hpk; exact hpk rfl
        rw [List.erase_cons, if_neg (by simp [hpne]), List.filter_cons,
          if_neg (by simp [hpk])]
        exact ih h

/-- Erasing an instance of one kind does not change the live instances of
another kind. -/
theorem filter_erase_other (k k2 : ChartKind) (i : ℕ) (hne : k2 ≠ k) :
    ∀ (l : List (ChartKind × ℕ)),
      (l.erase (k, i)).filter (fun p => p.1 == k2) =
        l.filter (fun p => p.1 == k2) := by
  intro l
  induction l with
  | nil => rfl
  | cons p l ih =>
      by_cases hp : p = (k, i)
      · rw [List.erase_cons, if_pos (by simp [hp])]
        rw [List.filter_cons, if_neg (by simp [hp, Ne.symm hne])]
      · rw [List.erase_cons, if_neg (by simp [hp])]
        by_cases hpk2 : p.1 = k2
        · rw [List.filter_cons, if_pos (by simp [hpk2]), List.filter_cons,
            if_pos (by simp [hpk2]), ih]
        · rw [List.filter_cons, if_neg (by simp [hpk2]), List.filter_cons,
            if_neg (by simp [hpk2])]
          exact ih

/-- The startup state satisfies the Charts invariant. -/
theorem chartsInv_initial : ChartsInv initialCharts := by
  intro k
  cases k <;> rfl

/-- Every chart-creation call preserves the Charts invariant: the previous
instance of the kind is destroyed before the new one is created and stored,
and a failed fetch changes nothing. -/
theorem chartsInv_step (k : ChartKind) (ok : Bool) (st : ChartsState)
    (h : ChartsInv st) : ChartsInv (createChart k ok st) := by
  cases ok with
  | false => exact h
  | true =>
      intro k2
      simp only [createChart, if_true]
      cases hf : chartField st k with
      | some i =>
          rw [setChartField_live, chartField_setChartField, chartField_live_update]
          by_cases hk : k2 = k
          · subst hk
            rw [if_pos rfl, List.filter_append,
              filter_erase_single k2 i st.live (by rw [h k2, hf])]
            simp
          · rw [if_neg hk, List.filter_append, filter_erase_other k k2 i hk st.live,
              h k2]
            have hcf : chartField { st with live := st.live.erase (k, i) } k2 =
                chartField st k2 := by
              cases k2 <;> rfl
            rw [hcf]
            have hke : (((k, st.nextId) : ChartKind × ℕ).1 == k2) = false := by
              simp [Ne.symm hk]
            simp [List.filter_cons, hke]
      | none =>
          rw [setChartField_live, chartField_setChartField, chartField_live_update]
          by_cases hk : k2 = k
          · subst hk
            rw [if_pos rfl, List.filter_append, h k2, hf]
            simp
          · rw [if_neg hk, List.filter_append, h k2]
            have hke : (((k, st.nextId) : ChartKind × ℕ).1 == k2) = false := by
              simp [Ne.symm hk]
            simp [List.filter_cons, hke]

/-- The Charts invariant holds after any sequence of chart-creation
calls. -/
theorem chartsInv_run : ∀ (cmds : List (ChartKind × Bool)) (st : ChartsState),
    ChartsInv st →
    ChartsInv (cmds.foldl (fun st c => createChart c.1 c.2 st) st) := by
  intro cmds
  induction cmds with
  | nil => intro st h; exact h
  | cons c cmds ih =>
      intro st h
      rw [List.foldl_cons]
      exact ih _ (chartsInv_step c.1 c.2 st h)

/-- C10: after every sequence of chart-creation calls (in particular any
number of `updateAll` rounds, with failures interleaved), each chart kind
has at most one live instance, and the live instances of a kind are exactly
the one its field stores - so the previously held instance is always
destroyed before a new one is stored and no call leaves two live instances
of the same kind. -/
theorem spec_C10_single_instance (cmds : List (ChartKind × Bool)) (k : ChartKind) :
    liveCount (runCharts cmds) k ≤ 1 ∧
    (runCharts cmds).live.filter (fun p => p.1 == k) =
      (match chartField (runCharts cmds) k with
       | some i => [(k, i)]
       | none => []) := by
  have hinv : ChartsInv (runCharts cmds) :=
    chartsInv_run cmds initialCharts chartsInv_initial
  refine ⟨?_, hinv k⟩
  rw [liveCount, hinv k]
  cases chartField (runCharts cmds) k <;> simp

/-- C2 counterexample: epoch 1 completes and renders every view (the map
shows its two listings, the quick-stat and the charts are drawn from epoch
1) while epoch 0's listing fetch is still outstanding; when the superseded
epoch 0 then resolves, its callbacks still mutate the map, the quick-stats
and the charts, dragging every view back to epoch 0 - the stale results
are applied, not discarded. -/
theorem spec_C2_counterexample :
    (runApp staleFetch staleTracePrefix).markersEpoch = some 1 ∧
    (runApp staleFetch staleTracePrefix).listingCount = some 2 ∧
    (runApp staleFetch staleTracePrefix).statsEpoch = some 1 ∧
    (runApp staleFetch staleTracePrefix).chartsEpoch = some 1 ∧
    (runApp staleFetch staleTracePrefix).tasks = [(0, TaskStage.awaitListings)] ∧
    (runApp staleFetch staleTrace).markersEpoch = some 0 ∧
    (runApp staleFetch staleTrace).listingCount = some 1 ∧
    (runApp staleFetch staleTrace).statsEpoch = some 0 ∧
    (runApp staleFetch staleTrace).chartsEpoch = some 0 :=
  ⟨rfl, rfl, rfl, rfl, rfl, rfl, rfl, rfl, rfl⟩

/-- C2 (amended): the Controller has no epoch gating.  Whenever an awaited
sub-fetch of an epoch still in flight resolves, its callback applies that
epoch's results to its views unconditionally - whatever any other epoch
has rendered meanwhile - so a stale epoch N resolving after epoch N+1 has
completed and rendered overwrites the map, the quick-stats and the charts
(see the counterexample); and because the sub-fetches are independent
suspension points, interleavings exist that leave the map and the charts
permanently on different epochs. -/
theorem spec_C2_stale_epoch_overwrites (fetchOf : ℕ → List Listing)
    (evs : List AppEvent) (e : ℕ) :
    ((e, TaskStage.awaitListings) ∈ (runApp fetchOf evs).tasks →
      runApp fetchOf (evs ++ [AppEvent.resolveListings e]) =
        { runApp fetchOf evs with
          markersEpoch := some e,
          markers := addListings (runApp fetchOf evs).markers (fetchOf e),
          listingCount := some (fetchOf e).length,
          tasks := (runApp fetchOf evs).tasks.erase (e, TaskStage.awaitListings) ++
            [(e, TaskStage.awaitStats)] }) ∧
    ((e, TaskStage.awaitStats) ∈ (runApp fetchOf evs).tasks →
      runApp fetchOf (evs ++ [AppEvent.resolveStats e]) =
        { runApp fetchOf evs with
          statsEpoch := some e,
          tasks := (runApp fetchOf evs).tasks.erase (e, TaskStage.awaitStats) ++
            [(e, TaskStage.awaitCharts)] }) ∧
    ((e, TaskStage.awaitCharts) ∈ (runApp fetchOf evs).tasks →
      runApp fetchOf (evs ++ [AppEvent.resolveCharts e]) =
        { runApp fetchOf evs with
          chartsEpoch := some e,
          tasks := (runApp fetchOf evs).tasks.erase (e, TaskStage.awaitCharts) }) ∧
    (runApp staleFetch divergeTrace).markersEpoch = some 1 ∧
    (runApp staleFetch divergeTrace).chartsEpoch = some 0 ∧
    (runApp staleFetch divergeTrace).tasks = [] := by
  refine ⟨?_, ?_, ?_, rfl, rfl, rfl⟩
  · intro hp
    rw [runApp, List.foldl_append]
    show appStep fetchOf (runApp fetchOf evs) (AppEvent.resolveListings e) = _
    rw [appStep, if_pos hp]
  · intro hp
    rw [runApp, List.foldl_append]
    show appStep fetchOf (runApp fetchOf evs) (AppEvent.resolveStats e) = _
    rw [appStep, if_pos hp]
  · intro hp
    rw [runApp, List.foldl_append]
    show appStep fetchOf (runApp fetchOf evs) (AppEvent.resolveCharts e) = _
    rw [appStep, if_pos hp]

/-- C2 witness: the listings clause of `spec_C2_stale_epoch_overwrites` at
the concrete counterexample trace - epoch 0's listing fetch is still
pending after epoch 1 has completed and rendered, and its late resolve
overwrites the map and the listing count with epoch-0 data. -/
theorem spec_C2_witness :
    runApp staleFetch (staleTracePrefix ++ [AppEvent.resolveListings 0]) =
      { runApp staleFetch staleTracePrefix with
        markersEpoch := some 0,
        markers := addListings (runApp staleFetch staleTracePrefix).markers
          (staleFetch 0),
        listingCount := some (staleFetch 0).length,
        tasks := (runApp staleFetch staleTracePrefix).tasks.erase
          (0, TaskStage.awaitListings) ++ [(0, TaskStage.awaitStats)] } :=
  (spec_C2_stale_epoch_overwrites staleFetch staleTracePrefix 0).1 (by decide)
